import Mathlib

/-!
Verification development for `pshaw` (Persistent Shell Archive Wrapper,
`src/pshaw.py`), a wrapper that runs a shell inside a persistent session
directory (`~/.pshaw/<label>`) holding `workdir`, `log`, `history`, a lock
marker, and a generated init script.

The Python program is shallowly embedded below:
* file contents are `List Nat` (byte strings) or `String` (text files);
* `splitLines`/`tailN` model how `tail -n` counts and keeps lines
  (a line is a chunk terminated by byte 10, with a final unterminated
  chunk also counting as a line);
* `truncate` models `pshaw.truncate` (rotation): `shutil.move` of `path`
  onto `oldpath` followed by rewriting `path` with `tail -n size oldpath`;
* `run`, `create`, `connect`, `parse_arguments`, `main` model the
  corresponding functions as state transformers over an explicit
  `SessionState`, with the ambient process environment (shell, cwd, lock
  state, child exit status, child output bytes) passed in as an `Env`.
-/

namespace Pshaw

/-- Byte-level line splitting, matching how `tail -n` counts lines:
the content is cut into chunks, each chunk ending with a newline byte
(10), except that a final chunk without a trailing newline also counts
as one line.  Concatenating the chunks gives back the content. -/
def splitLines : List Nat → List (List Nat)
  | [] => []
  | b :: rest =>
    if b = 10 then [b] :: splitLines rest
    else
      match splitLines rest with
      | [] => [b] :: []
      | l :: ls => (b :: l) :: ls

@[simp] theorem splitLines_nil : splitLines [] = [] := rfl

@[simp] theorem splitLines_newline (rest : List Nat) :
    splitLines (10 :: rest) = [10] :: splitLines rest := by
  simp [splitLines]

theorem splitLines_other (b : Nat) (rest : List Nat) (hb : b ≠ 10) :
    splitLines (b :: rest) =
      match splitLines rest with
      | [] => [b] :: []
      | l :: ls => (b :: l) :: ls := by
  simp [splitLines, hb]

theorem splitLines_ne_nil (b : Nat) (rest : List Nat) :
    splitLines (b :: rest) ≠ [] := by
  by_cases hb : b = 10
  · subst hb; simp
  · rw [splitLines_other b rest hb]
    cases splitLines rest <;> simp

theorem splitLines_eq_nil_iff (s : List Nat) : splitLines s = [] ↔ s = [] := by
  cases s with
  | nil => simp
  | cons b rest => simpa using splitLines_ne_nil b rest

/-- Concatenating the line chunks reconstructs the original content. -/
theorem join_splitLines : ∀ s : List Nat, (splitLines s).flatten = s := by
  intro s
  induction s with
  | nil => rfl
  | cons b rest ih =>
    by_cases hb : b = 10
    · subst hb; simp [ih]
    · rw [splitLines_other b rest hb]
      cases h : splitLines rest with
      | nil =>
        have : rest = [] := (splitLines_eq_nil_iff rest).mp h
        subst this; rfl
      | cons l ls =>
        have : ((b :: l) :: ls).flatten = b :: (l :: ls).flatten := by simp
        rw [this, ← h, ih]

/-- A newline-terminated chunk: a body free of newline bytes followed by
a newline byte.  Every non-final chunk produced by `splitLines` has this
shape. -/
def NlChunk (c : List Nat) : Prop :=
  ∃ body, c = body ++ [10] ∧ ∀ x ∈ body, x ≠ 10

/-- A final unterminated chunk: nonempty and free of newline bytes. -/
def PlainChunk (c : List Nat) : Prop :=
  c ≠ [] ∧ ∀ x ∈ c, x ≠ 10

/-- Well-shaped chunk lists: all chunks newline-terminated except that
the final one may instead be a plain unterminated chunk. -/
def Shape : List (List Nat) → Prop
  | [] => True
  | [c] => NlChunk c ∨ PlainChunk c
  | c :: cs => NlChunk c ∧ Shape cs

theorem shape_nil : Shape [] := trivial

theorem shape_singleton (c : List Nat) (h : NlChunk c ∨ PlainChunk c) :
    Shape [c] := h

theorem shape_cons (c : List Nat) (cs : List (List Nat))
    (hc : NlChunk c) (hcs : Shape cs) : Shape (c :: cs) := by
  cases cs with
  | nil => exact Or.inl hc
  | cons c2 cs2 => exact ⟨hc, hcs⟩

theorem shape_tail (c : List Nat) (cs : List (List Nat))
    (h : Shape (c :: cs)) : Shape cs := by
  cases cs with
  | nil => trivial
  | cons c2 cs2 => exact h.2

theorem shape_drop (k : Nat) (cs : List (List Nat)) (h : Shape cs) :
    Shape (cs.drop k) := by
  induction k generalizing cs with
  | zero => simpa using h
  | succ k ih =>
    cases cs with
    | nil => simpa using shape_nil
    | cons c cs2 => simpa using ih cs2 (shape_tail c cs2 h)

theorem nlChunk_cons (b : Nat) (c : List Nat) (hb : b ≠ 10)
    (h : NlChunk c) : NlChunk (b :: c) := by
  obtain ⟨body, rfl, hbody⟩ := h
  refine ⟨b :: body, by simp, ?_⟩
  intro x hx
  rcases List.mem_cons.mp hx with rfl | hx
  · exact hb
  · exact hbody x hx

theorem plainChunk_cons (b : Nat) (c : List Nat) (hb : b ≠ 10)
    (h : PlainChunk c) : PlainChunk (b :: c) := by
  obtain ⟨-, hc⟩ := h
  refine ⟨by simp, ?_⟩
  intro x hx
  rcases List.mem_cons.mp hx with rfl | hx
  · exact hb
  · exact hc x hx

theorem shape_cons_head (b : Nat) (l : List Nat) (ls : List (List Nat))
    (hb : b ≠ 10) (h : Shape (l :: ls)) : Shape ((b :: l) :: ls) := by
  cases ls with
  | nil =>
    rcases h with h | h
    · exact Or.inl (nlChunk_cons b l hb h)
    · exact Or.inr (plainChunk_cons b l hb h)
  | cons l2 ls2 =>
    exact ⟨nlChunk_cons b l hb h.1, h.2⟩

/-- The chunk list produced by `splitLines` is well shaped. -/
theorem shape_splitLines : ∀ s : List Nat, Shape (splitLines s) := by
  intro s
  induction s with
  | nil => exact shape_nil
  | cons b rest ih =>
    by_cases hb : b = 10
    · subst hb
      rw [splitLines_newline]
      exact shape_cons _ _ ⟨[], rfl, by simp⟩ ih
    · rw [splitLines_other b rest hb]
      cases h : splitLines rest with
      | nil =>
        exact shape_singleton _ (Or.inr ⟨by simp, by simp [hb]⟩)
      | cons l ls =>
        rw [h] at ih
        exact shape_cons_head b l ls hb ih

theorem splitLines_nlchunk_append (body : List Nat)
    (hb : ∀ x ∈ body, x ≠ 10) (s : List Nat) :
    splitLines ((body ++ [10]) ++ s) = (body ++ [10]) :: splitLines s := by
  induction body with
  | nil => simp
  | cons b body ih =>
    have hb10 : b ≠ 10 := hb b (by simp)
    have hrw : ((b :: body) ++ [10]) ++ s = b :: ((body ++ [10]) ++ s) := by
      simp
    rw [hrw, splitLines_other b _ hb10,
      ih (fun x hx => hb x (by simp [hx]))]
    rfl

theorem splitLines_plain (c : List Nat) (hne : c ≠ [])
    (hc : ∀ x ∈ c, x ≠ 10) : splitLines c = [c] := by
  induction c with
  | nil => exact absurd rfl hne
  | cons b c ih =>
    rw [splitLines_other b c (hc b (by simp))]
    cases c with
    | nil => rfl
    | cons b2 c2 =>
      rw [ih (by simp) (fun x hx => hc x (by simp [hx]))]

/-- Splitting the concatenation of a well-shaped chunk list gives back
exactly that chunk list. -/
theorem splitLines_join : ∀ cs : List (List Nat), Shape cs →
    splitLines cs.flatten = cs := by
  intro cs
  induction cs with
  | nil => intro; rfl
  | cons c cs ih =>
    intro h
    cases cs with
    | nil =>
      rcases h with ⟨body, rfl, hbody⟩ | ⟨hne, hc⟩
      · have : ((body ++ [10]) :: []).flatten = (body ++ [10]) ++ [] := by simp
        rw [this, splitLines_nlchunk_append body hbody []]
        rfl
      · have : (c :: []).flatten = c := by simp
        rw [this, splitLines_plain c hne hc]
    | cons c2 cs2 =>
      obtain ⟨⟨body, rfl, hbody⟩, h2⟩ := h
      have hrw : ((body ++ [10]) :: c2 :: cs2).flatten =
          (body ++ [10]) ++ (c2 :: cs2).flatten := by simp
      rw [hrw, splitLines_nlchunk_append body hbody, ih h2]

/-- Model of `tail -n size`: keep the last `size` lines (chunks). -/
def tailN (size : Nat) (s : List Nat) : List Nat :=
  ((splitLines s).drop ((splitLines s).length - size)).flatten

theorem splitLines_tailN (size : Nat) (s : List Nat) :
    splitLines (tailN size s) =
      (splitLines s).drop ((splitLines s).length - size) :=
  splitLines_join _ (shape_drop _ _ (shape_splitLines s))

theorem tailN_of_le (s : List Nat) (size : Nat)
    (h : (splitLines s).length ≤ size) : tailN size s = s := by
  unfold tailN
  rw [Nat.sub_eq_zero_of_le h, List.drop_zero, join_splitLines]

theorem length_splitLines_tailN_le (size : Nat) (s : List Nat) :
    (splitLines (tailN size s)).length ≤ size := by
  rw [splitLines_tailN, List.length_drop]
  omega

theorem tailN_idem (size : Nat) (s : List Nat) :
    tailN size (tailN size s) = tailN size s :=
  tailN_of_le _ _ (length_splitLines_tailN_le size s)

/-- Model of `pshaw.truncate(path, oldpath, size)` acting on file
contents.  `shutil.move(path, oldpath)` raises (returns `none` here)
when the file at `path` does not exist; otherwise `oldpath` is
overwritten with the old content of `path` and `path` is rewritten with
`tail -n size` of that content.  Returns
`some (new content of path, new content of oldpath)`. -/
def truncate (path : Option (List Nat)) (size : Nat) :
    Option (List Nat × List Nat) :=
  match path with
  | none => none
  | some content => some (tailN size content, content)

/-- `logsize` from the source: lines kept in `log` after rotation. -/
def logsize : Nat := 1000000

/-- `historysize` from the source: lines kept in `history` after rotation. -/
def historysize : Nat := 1000000

/-- The `usage_message` string from the source. -/
def usage_message : String :=
  "Usage:\n\n    pshaw create <label>\n    pshaw connect <label>\n    pshaw list\n\ncreate  -- Create a new session using <label> as the identifier and run a shell in that session.\n\nconnect -- Connect to an existing session with identifier <label>\n\nlist    -- List all sessions\n\n"

/-- Message written by `run` when `SHELL` is not `/bin/bash`. -/
def unknownShellMsg (shell : String) : String :=
  "Unknown Shell: " ++ shell ++ "\n"

/-- Message written by `create` when the session directory exists. -/
def alreadyExistsMsg (label : String) : String :=
  "Cannot create session: \"" ++ label ++ "\" already exists.\n"

/-- Message written by `connect` when the session directory is absent. -/
def notFoundMsg (label : String) : String :=
  "Cannot connect to session: \"" ++ label ++ "\" not found\n"

/-- Message written by `run` on a lock conflict (both for the
preliminary probe and for the sentinel exit status of the spawn). -/
def lockedMsg (label lockpath : String) : String :=
  "Cannot connect to session \"" ++ label ++ "\": Session locked. If you are sure you are not already using this session, you can rm " ++ lockpath ++ " to unlock it.\n"

/-- Message written by `parse_arguments` for a label outside the safe
character set. -/
def invalidLabelMsg (label : String) : String :=
  "Invalid label " ++ label ++ ": Must be [-a-zA-Z0-9]+\n"

/-- The `init_bash` template from the source, with the four `{...}`
placeholders substituted as by Python `str.format`. -/
def init_bash (label rcpath historypath workpath : String) : String :=
  "\n\nPSHAW_LABEL=" ++ label ++
  "\nsource " ++ rcpath ++
  "\n\nshopt -s histappend\nHISTFILE=" ++ historypath ++
  "\ncd `cat " ++ workpath ++
  "`\nPROMPT_COMMAND=\"history -a; pwd > " ++ workpath ++
  "; $PROMPT_COMMAND\"\n\necho === Connected to session " ++ label ++
  " ===\n\n"

/-- Contents of the files of one session directory `~/.pshaw/<label>`.
`none` means the file (or, for `dirExists`, the directory) is absent.
`log`/`history` and their backups are byte strings; `workdir` and the
generated init script are text. -/
structure SessionState where
  dirExists : Bool
  workdir : Option String
  log : Option (List Nat)
  history : Option (List Nat)
  logOld : Option (List Nat)
  historyOld : Option (List Nat)
  initFile : Option String
deriving DecidableEq, Repr

/-- Ambient process environment of one invocation: `$SHELL`, the home
directory, the current directory, whether the session lock was held when
the preliminary `flock` probe ran, the exit status `pty.spawn` reports
for the `flock`-wrapped shell (200 exactly when the authoritative lock
acquisition failed), and the bytes the child wrote to its pty (teed to
the log). -/
structure Env where
  shell : String
  home : String
  cwd : String
  lockHeldAtProbe : Bool
  childStatus : Nat
  childOutput : List Nat
deriving DecidableEq, Repr

/-- How an invocation ends: `exit` with a status code, or an uncaught
Python exception (e.g. `FileNotFoundError` from `shutil.move`). -/
inductive Outcome where
  | exited (code : Nat)
  | raised
deriving DecidableEq, Repr

/-- Observable trace of `run`/`create`/`connect`: final session state,
outcome, messages written to stderr, bytes written to the real terminal
before the shell is spawned, and how many times `truncate` was invoked
on the log and on the history. -/
structure RunTrace where
  state : SessionState
  outcome : Outcome
  stderr : List String
  preSpawnBytes : List Nat
  logRotateCalls : Nat
  historyRotateCalls : Nat
deriving DecidableEq, Repr

/-- Model of `pshaw.run(label)`.  Checks the shell, probes the lock,
writes the init script, clears the terminal (ESC c) and replays the log,
spawns the `flock`-wrapped shell (appending its output to the log), and
on a non-sentinel exit status rotates log and history. -/
def run (env : Env) (label : String) (st : SessionState) : RunTrace :=
  let basepath := env.home ++ "/.pshaw/" ++ label
  let lockpath := basepath ++ "/lock"
  if env.shell ≠ "/bin/bash" then
    { state := st, outcome := .exited 1,
      stderr := [unknownShellMsg env.shell, usage_message],
      preSpawnBytes := [], logRotateCalls := 0, historyRotateCalls := 0 }
  else if env.lockHeldAtProbe then
    { state := st, outcome := .exited 1,
      stderr := [lockedMsg label lockpath],
      preSpawnBytes := [], logRotateCalls := 0, historyRotateCalls := 0 }
  else
    let st1 := { st with initFile := some (init_bash label
      (env.home ++ "/.bashrc") (basepath ++ "/history")
      (basepath ++ "/workdir")) }
    match st1.log with
    | none =>
      -- logpath.open('rb') raises FileNotFoundError
      { state := st1, outcome := .raised, stderr := [],
        preSpawnBytes := [], logRotateCalls := 0, historyRotateCalls := 0 }
    | some l =>
      let preBytes := [27, 99] ++ l
      let st2 := { st1 with log := some (l ++ env.childOutput) }
      if env.childStatus ≠ 200 then
        match truncate st2.log logsize with
        | none =>
          { state := st2, outcome := .raised, stderr := [],
            preSpawnBytes := preBytes, logRotateCalls := 1,
            historyRotateCalls := 0 }
        | some (newLog, oldLog) =>
          let st3 := { st2 with log := some newLog, logOld := some oldLog }
          match truncate st3.history historysize with
          | none =>
            -- shutil.move raises: no history file was ever written
            { state := st3, outcome := .raised, stderr := [],
              preSpawnBytes := preBytes, logRotateCalls := 1,
              historyRotateCalls := 1 }
          | some (newHist, oldHist) =>
            let st4 := { st3 with
                         history := some newHist,
                         historyOld := some oldHist }
            { state := st4, outcome := .exited 0, stderr := [],
              preSpawnBytes := preBytes, logRotateCalls := 1,
              historyRotateCalls := 1 }
      else
        { state := st2, outcome := .exited 1,
          stderr := [lockedMsg label lockpath],
          preSpawnBytes := preBytes, logRotateCalls := 0,
          historyRotateCalls := 0 }

/-- Model of `pshaw.create(label)`: fail (usage, exit 1) if the session
directory exists, otherwise create it, write `workdir` with the current
directory, touch `log`, and call `run`. -/
def create (env : Env) (label : String) (st : SessionState) : RunTrace :=
  if st.dirExists then
    { state := st, outcome := .exited 1,
      stderr := [alreadyExistsMsg label, usage_message],
      preSpawnBytes := [], logRotateCalls := 0, historyRotateCalls := 0 }
  else
    run env label { st with
                    dirExists := true,
                    workdir := some env.cwd,
                    log := some (st.log.getD []) }

/-- Model of `pshaw.connect(label)`: fail (usage, exit 1) if the session
directory is absent, otherwise call `run`. -/
def connect (env : Env) (label : String) (st : SessionState) : RunTrace :=
  if st.dirExists then run env label st
  else
    { state := st, outcome := .exited 1,
      stderr := [notFoundMsg label, usage_message],
      preSpawnBytes := [], logRotateCalls := 0, historyRotateCalls := 0 }

/-- One character of the safe label class `[-0-9a-zA-Z]`. -/
def labelChar (c : Char) : Bool :=
  c = '-' || ('0' ≤ c && c ≤ '9') || ('a' ≤ c && c ≤ 'z') ||
    ('A' ≤ c && c ≤ 'Z')

/-- Model of `re.match('^[-0-9a-zA-Z]+$', s) is not None`: one or more
safe characters spanning the whole string, where Python `$` also
matches just before a single trailing newline. -/
def label_matches (s : String) : Bool :=
  (!s.data.isEmpty && s.data.all labelChar) ||
    (s.data.getLast? == some '\n' &&
      (!s.data.dropLast.isEmpty && s.data.dropLast.all labelChar))

/-- Result of `parse_arguments`: a usage failure (usage text printed to
stderr, exit 1), the `list` command, or a session command (`create` or
`connect`) with its label.  `invalidMsgPrinted` records whether the
"Invalid label" message was written to stderr (the source writes it but
then continues). -/
inductive ParseResult where
  | usageExit
  | listCmd
  | sessionCmd (cmd : String) (label : String) (invalidMsgPrinted : Bool)
deriving DecidableEq, Repr

/-- Model of `pshaw.parse_arguments()` on the full argv (program name
first). -/
def parse_arguments (argv : List String) : ParseResult :=
  match argv with
  | _prog :: cmd :: rest =>
    if cmd = "list" then
      if rest.isEmpty then .listCmd else .usageExit
    else
      match rest with
      | [lbl] =>
        if cmd ≠ "create" ∧ cmd ≠ "connect" then .usageExit
        else .sessionCmd cmd lbl (!label_matches lbl)
      | _ => .usageExit
  | _ => .usageExit

/-- What `main` did after parsing: usage failure (exit 1), listed the
sessions, or executed a session command producing a `RunTrace`. -/
inductive MainAction where
  | usageExit
  | listed
  | session (t : RunTrace)
deriving DecidableEq, Repr

/-- Trace of `pshaw.main()`: stderr writes made during argument parsing,
then the action taken. -/
structure MainTrace where
  preStderr : List String
  action : MainAction
deriving DecidableEq, Repr

/-- Model of `pshaw.main()`. -/
def main (argv : List String) (env : Env) (st : SessionState) : MainTrace :=
  match parse_arguments argv with
  | .usageExit => { preStderr := [usage_message], action := .usageExit }
  | .listCmd => { preStderr := [], action := .listed }
  | .sessionCmd cmd lbl invalid =>
    let pre := if invalid then [invalidLabelMsg lbl] else []
    if cmd = "create" then
      { preStderr := pre, action := .session (create env lbl st) }
    else
      { preStderr := pre, action := .session (connect env lbl st) }

/-- A fresh environment: bash shell, lock free, shell exits 0 having
written nothing. -/
def envFresh : Env :=
  { shell := "/bin/bash", home := "/home/u", cwd := "/home/u/proj",
    lockHeldAtProbe := false, childStatus := 0, childOutput := [] }

/-- A state with no session directory at all. -/
def stEmpty : SessionState :=
  { dirExists := false, workdir := none, log := none, history := none,
    logOld := none, historyOld := none, initFile := none }

/-- A created, never-connected session for label under `/home/u`. -/
def stCreated : SessionState :=
  { dirExists := true, workdir := some "/home/u/proj", log := some [],
    history := none, logOld := none, historyOld := none, initFile := none }

/-- C1: for content with `N` lines and maximum `M < N`, rotation leaves
`path` holding exactly the last `M` lines of the original content in
their original relative order, and the backup holding the pre-rotation
content with all `N` lines. -/
theorem C1_truncate_keeps_last_lines (l : List Nat) (M N : Nat)
    (hN : (splitLines l).length = N) (hM : M < N) :
    ∃ newContent backup,
      truncate (some l) M = some (newContent, backup)
      ∧ splitLines newContent = (splitLines l).drop (N - M)
      ∧ (splitLines newContent).length = M
      ∧ backup = l
      ∧ (splitLines backup).length = N := by
  refine ⟨tailN M l, l, rfl, ?_, ?_, rfl, hN⟩
  · rw [splitLines_tailN, hN]
  · rw [splitLines_tailN, List.length_drop]
    omega

theorem C1_truncate_keeps_last_lines_witness :
    ∃ newContent backup,
      truncate (some [97, 10, 98, 10, 99]) 2 = some (newContent, backup)
      ∧ splitLines newContent = (splitLines [97, 10, 98, 10, 99]).drop (3 - 2)
      ∧ (splitLines newContent).length = 2
      ∧ backup = [97, 10, 98, 10, 99]
      ∧ (splitLines backup).length = 3 :=
  C1_truncate_keeps_last_lines [97, 10, 98, 10, 99] 2 3 (by decide)
    (by decide)

/-- C10: for content with at most `size` lines, rotation leaves the
content of `path` unchanged, and rotating a second time leaves the
content of `path` equal to the content after one rotation. -/
theorem C10_truncate_id_and_idem (l : List Nat) (size : Nat)
    (h : (splitLines l).length ≤ size) :
    truncate (some l) size = some (l, l)
    ∧ ∀ l2 : List Nat, ∀ size2 : Nat,
        truncate (some (tailN size2 l2)) size2 =
          some (tailN size2 l2, tailN size2 l2) := by
  constructor
  · show some (tailN size l, l) = some (l, l)
    rw [tailN_of_le l size h]
  · intro l2 size2
    show some (tailN size2 (tailN size2 l2), tailN size2 l2) = _
    rw [tailN_idem]

theorem C10_truncate_id_and_idem_witness :
    truncate (some [97, 10, 98]) 5 = some ([97, 10, 98], [97, 10, 98])
    ∧ ∀ l2 : List Nat, ∀ size2 : Nat,
        truncate (some (tailN size2 l2)) size2 =
          some (tailN size2 l2, tailN size2 l2) :=
  C10_truncate_id_and_idem [97, 10, 98] 5 (by decide)

/-- C8: `create` on a label whose session directory already exists
reports, prints usage, exits 1, and leaves the session state (all file
contents) exactly as it was. -/
theorem C8_create_existing_no_mutation (env : Env) (label : String)
    (st : SessionState) (h : st.dirExists = true) :
    create env label st =
      { state := st, outcome := .exited 1,
        stderr := [alreadyExistsMsg label, usage_message],
        preSpawnBytes := [], logRotateCalls := 0,
        historyRotateCalls := 0 } := by
  unfold create
  rw [h]
  simp

theorem C8_create_existing_no_mutation_witness :
    create envFresh "work" stCreated =
      { state := stCreated, outcome := .exited 1,
        stderr := [alreadyExistsMsg "work", usage_message],
        preSpawnBytes := [], logRotateCalls := 0,
        historyRotateCalls := 0 } :=
  C8_create_existing_no_mutation envFresh "work" stCreated rfl

/-- C6: once the spawn is reached, `truncate` is invoked exactly once on
the log and once on the history precisely when the child exit status is
not the sentinel 200; the sentinel instead yields the conflict report,
exit status 1, and no rotation at all. -/
theorem C6_rotation_iff_non_sentinel (env : Env) (label : String)
    (st : SessionState) (l : List Nat) (hsh : env.shell = "/bin/bash")
    (hp : env.lockHeldAtProbe = false) (hl : st.log = some l) :
    (env.childStatus ≠ 200 →
      (run env label st).logRotateCalls = 1
      ∧ (run env label st).historyRotateCalls = 1
      ∧ (run env label st).stderr = [])
    ∧ (env.childStatus = 200 →
      (run env label st).logRotateCalls = 0
      ∧ (run env label st).historyRotateCalls = 0
      ∧ (run env label st).outcome = .exited 1
      ∧ (run env label st).stderr =
          [lockedMsg label (env.home ++ "/.pshaw/" ++ label ++ "/lock")]) := by
  unfold run
  rw [hsh, hp]
  simp only [ne_eq, not_true_eq_false, if_false, Bool.false_eq_true, hl]
  constructor
  · intro hcs
    simp only [hcs, not_false_eq_true, if_true, truncate]
    cases st.history <;> simp
  · intro hcs
    simp [hcs]

theorem C6_rotation_iff_non_sentinel_witness :
    ((envFresh.childStatus ≠ 200 →
      (run envFresh "work" stCreated).logRotateCalls = 1
      ∧ (run envFresh "work" stCreated).historyRotateCalls = 1
      ∧ (run envFresh "work" stCreated).stderr = [])
    ∧ (envFresh.childStatus = 200 →
      (run envFresh "work" stCreated).logRotateCalls = 0
      ∧ (run envFresh "work" stCreated).historyRotateCalls = 0
      ∧ (run envFresh "work" stCreated).outcome = .exited 1
      ∧ (run envFresh "work" stCreated).stderr =
          [lockedMsg "work"
            (envFresh.home ++ "/.pshaw/" ++ "work" ++ "/lock")])) :=
  C6_rotation_iff_non_sentinel envFresh "work" stCreated [] rfl rfl rfl

/-- C9: a disconnect with a non-sentinel status whose session has no
history file ends in an uncaught exception from the move step of the
history rotation (the history file stays absent), and in general a
normally completed invocation (exit status 0) requires both the log and
the history file to have existed. -/
theorem C9_missing_history_raises (env : Env) (label : String)
    (st : SessionState) (l : List Nat) (hsh : env.shell = "/bin/bash")
    (hp : env.lockHeldAtProbe = false) (hl : st.log = some l)
    (hcs : env.childStatus ≠ 200) (hh : st.history = none) :
    ((run env label st).outcome = .raised
      ∧ (run env label st).state.history = none
      ∧ (run env label st).state.historyOld = st.historyOld)
    ∧ ∀ env2 : Env, ∀ label2 : String, ∀ st2 : SessionState,
        (run env2 label2 st2).outcome = .exited 0 →
        st2.log ≠ none ∧ st2.history ≠ none := by
  constructor
  · unfold run
    rw [hsh, hp]
    simp only [ne_eq, not_true_eq_false, if_false, Bool.false_eq_true, hl,
      hcs, not_false_eq_true, if_true, truncate, hh]
    simp
  · intro env2 label2 st2 hdone
    unfold run at hdone
    by_cases h1 : env2.shell = "/bin/bash"
    · rw [h1] at hdone
      simp only [ne_eq, not_true_eq_false, if_false] at hdone
      by_cases h2 : env2.lockHeldAtProbe
      · simp [h2] at hdone
      · simp only [h2, Bool.false_eq_true, if_false] at hdone
        cases hlog : st2.log with
        | none => simp [hlog] at hdone
        | some l2 =>
          simp only [hlog] at hdone
          refine ⟨by simp [hlog], ?_⟩
          by_cases h3 : env2.childStatus = 200
          · simp [h3] at hdone
          · simp only [h3, ne_eq, not_false_eq_true, if_true,
              truncate] at hdone
            cases hhist : st2.history with
            | none => simp [hhist, truncate] at hdone
            | some h4 => simp [hhist]
    · simp [h1] at hdone

theorem C9_missing_history_raises_witness :
    (((run envFresh "work" stCreated).outcome = .raised
      ∧ (run envFresh "work" stCreated).state.history = none
      ∧ (run envFresh "work" stCreated).state.historyOld =
          stCreated.historyOld)
    ∧ ∀ env2 : Env, ∀ label2 : String, ∀ st2 : SessionState,
        (run env2 label2 st2).outcome = .exited 0 →
        st2.log ≠ none ∧ st2.history ≠ none) :=
  C9_missing_history_raises envFresh "work" stCreated [] rfl rfl rfl
    (by decide) rfl

/-- A session whose log holds the two bytes "hi". -/
def stLogHi : SessionState :=
  { dirExists := true, workdir := some "/home/u/proj",
    log := some [104, 105], history := none, logOld := none,
    historyOld := none, initFile := none }

/-- C5 fails as stated: with the prior log holding bytes "hi", the bytes
written to the real terminal before the spawn are not the log contents
— the terminal-reset sequence ESC c comes first. -/
theorem C5_replay_not_byte_exact :
    stLogHi.log = some [104, 105]
    ∧ (run envFresh "work" stLogHi).preSpawnBytes ≠ [104, 105] := by
  constructor
  · rfl
  · decide

/-- C5 amended: the bytes written to the real terminal before the spawn
are the two-byte terminal reset sequence ESC c (27, 99) followed
byte-for-byte by the contents of the log file immediately prior to the
connection. -/
theorem C5_replay_after_reset (env : Env) (label : String)
    (st : SessionState) (l : List Nat) (hsh : env.shell = "/bin/bash")
    (hp : env.lockHeldAtProbe = false) (hl : st.log = some l) :
    (run env label st).preSpawnBytes = [27, 99] ++ l := by
  unfold run
  rw [hsh, hp]
  simp only [ne_eq, not_true_eq_false, if_false, Bool.false_eq_true, hl]
  by_cases hcs : env.childStatus = 200
  · simp [hcs]
  · simp only [hcs, ne_eq, not_false_eq_true, if_true, truncate]
    cases st.history <;> simp [truncate]

theorem C5_replay_after_reset_witness :
    (run envFresh "work" stLogHi).preSpawnBytes = [27, 99] ++ [104, 105] :=
  C5_replay_after_reset envFresh "work" stLogHi [104, 105] rfl rfl rfl

/-- A locked session with a stale init script from an older connection. -/
def stLockedOldInit : SessionState :=
  { dirExists := true, workdir := some "/home/u/proj", log := some [],
    history := none, logOld := none, historyOld := none,
    initFile := some "OLD" }

/-- The environment seen by a connection racing for a held lock: the
preliminary probe succeeds but the authoritative `flock` acquisition in
the spawned child fails, so the child exits with the sentinel 200
having written nothing. -/
def envSpawnConflict : Env :=
  { shell := "/bin/bash", home := "/home/u", cwd := "/home/u/proj",
    lockHeldAtProbe := false, childStatus := 200, childOutput := [] }

/-- C7 fails as stated: a conflict detected only by the spawned
acquisition has already regenerated the init script, so session state is
mutated. -/
theorem C7_spawn_conflict_mutates :
    (run envSpawnConflict "work" stLockedOldInit).outcome = .exited 1
    ∧ (run envSpawnConflict "work" stLockedOldInit).state ≠
        stLockedOldInit := by
  constructor
  · decide
  · decide

/-- C7 amended: a lock conflict (probe-detected or spawn-detected)
reports the conflict with the remediation message, exits with status 1,
and performs no rotation; a probe-detected conflict leaves the session
state completely untouched, while a spawn-detected conflict has already
rewritten the init script and appended the child's output bytes (if
any) to the log, leaving workdir, history and both backups untouched. -/
theorem C7_lock_conflict_reports (env : Env) (label : String)
    (st : SessionState) (hsh : env.shell = "/bin/bash") :
    (env.lockHeldAtProbe = true →
      run env label st =
        { state := st, outcome := .exited 1,
          stderr := [lockedMsg label
            (env.home ++ "/.pshaw/" ++ label ++ "/lock")],
          preSpawnBytes := [], logRotateCalls := 0,
          historyRotateCalls := 0 })
    ∧ ∀ l : List Nat, env.lockHeldAtProbe = false → st.log = some l →
        env.childStatus = 200 →
        run env label st =
          { state := { st with
              initFile := some (init_bash label (env.home ++ "/.bashrc")
                (env.home ++ "/.pshaw/" ++ label ++ "/history")
                (env.home ++ "/.pshaw/" ++ label ++ "/workdir")),
              log := some (l ++ env.childOutput) },
            outcome := .exited 1,
            stderr := [lockedMsg label
              (env.home ++ "/.pshaw/" ++ label ++ "/lock")],
            preSpawnBytes := [27, 99] ++ l, logRotateCalls := 0,
            historyRotateCalls := 0 } := by
  constructor
  · intro hp
    unfold run
    rw [hsh, hp]
    simp
  · intro l hp hl hcs
    unfold run
    rw [hsh, hp]
    simp [hl, hcs]

theorem C7_lock_conflict_reports_witness :
    run envSpawnConflict "work" stLockedOldInit =
      { state := { stLockedOldInit with
          initFile := some (init_bash "work"
            (envSpawnConflict.home ++ "/.bashrc")
            (envSpawnConflict.home ++ "/.pshaw/" ++ "work" ++ "/history")
            (envSpawnConflict.home ++ "/.pshaw/" ++ "work" ++ "/workdir")),
          log := some ([] ++ envSpawnConflict.childOutput) },
        outcome := .exited 1,
        stderr := [lockedMsg "work"
          (envSpawnConflict.home ++ "/.pshaw/" ++ "work" ++ "/lock")],
        preSpawnBytes := [27, 99] ++ [], logRotateCalls := 0,
        historyRotateCalls := 0 } :=
  (C7_lock_conflict_reports envSpawnConflict "work" stLockedOldInit
    rfl).2 [] rfl rfl rfl

/-- An environment whose configured shell is zsh, not bash. -/
def envZsh : Env :=
  { shell := "/bin/zsh", home := "/home/u", cwd := "/home/u/proj",
    lockHeldAtProbe := false, childStatus := 0, childOutput := [] }

/-- C3 fails as stated: `create` under an unsupported shell exits 1 but
leaves the freshly created session directory, workdir file and log file
behind. -/
theorem C3_create_unsupported_shell_mutates :
    (create envZsh "work" stEmpty).outcome = .exited 1
    ∧ (create envZsh "work" stEmpty).state ≠ stEmpty
    ∧ (create envZsh "work" stEmpty).state.dirExists = true
    ∧ (create envZsh "work" stEmpty).state.workdir = some "/home/u/proj"
    ∧ (create envZsh "work" stEmpty).state.log = some [] := by
  refine ⟨by decide, by decide, by decide, by decide, by decide⟩

/-- C3 amended: an unsupported shell is reported (followed by the usage
text) and the invocation exits with status 1; `connect` on an existing
session mutates nothing, but `create` on a fresh label has already
created the session directory, the workdir file (holding the current
directory) and the log file before the shell check, and they remain
behind. -/
theorem C3_unsupported_shell_reports (env : Env) (label : String)
    (st : SessionState) (hsh : env.shell ≠ "/bin/bash") :
    (st.dirExists = true →
      connect env label st =
        { state := st, outcome := .exited 1,
          stderr := [unknownShellMsg env.shell, usage_message],
          preSpawnBytes := [], logRotateCalls := 0,
          historyRotateCalls := 0 })
    ∧ (st.dirExists = false →
      create env label st =
        { state := { st with
            dirExists := true,
            workdir := some env.cwd,
            log := some (st.log.getD []) },
          outcome := .exited 1,
          stderr := [unknownShellMsg env.shell, usage_message],
          preSpawnBytes := [], logRotateCalls := 0,
          historyRotateCalls := 0 }) := by
  constructor
  · intro hd
    unfold connect run
    rw [hd]
    simp [hsh]
  · intro hd
    unfold create run
    rw [hd]
    simp [hsh]

theorem C3_unsupported_shell_reports_witness :
    create envZsh "work" stEmpty =
      { state := { stEmpty with
          dirExists := true,
          workdir := some envZsh.cwd,
          log := some (stEmpty.log.getD []) },
        outcome := .exited 1,
        stderr := [unknownShellMsg envZsh.shell, usage_message],
        preSpawnBytes := [], logRotateCalls := 0,
        historyRotateCalls := 0 } :=
  (C3_unsupported_shell_reports envZsh "work" stEmpty
    (by decide)).2 rfl

set_option maxRecDepth 8000

/-- C2 fails on the code: for the invocation `pshaw create bad!` (label
with a character outside `[-a-zA-Z0-9]`), `parse_arguments` writes only
the invalid-label message (not the usage text) and then proceeds: `main`
performs the session operation, creating the session directory for the
invalid label. -/
theorem C2_invalid_label_proceeds :
    (main ["pshaw", "create", "bad!"] envFresh stEmpty).preStderr =
      [invalidLabelMsg "bad!"]
    ∧ (main ["pshaw", "create", "bad!"] envFresh stEmpty).action =
        .session (create envFresh "bad!" stEmpty)
    ∧ (create envFresh "bad!" stEmpty).state.dirExists = true
    ∧ (main ["pshaw", "create", "bad!"] envFresh stEmpty).preStderr ≠
        [usage_message] := by
  refine ⟨by decide, by decide, by decide, by decide⟩

/-- C4 fails as stated: the rendered init script never exports the
identifying variable — the string `export` does not occur in it at all
(the variable is assigned, unexported, by a plain `PSHAW_LABEL=...`
line). -/
theorem C4_no_export_in_script :
    ¬ ("export".data <:+:
        (init_bash "work" "/home/u/.bashrc" "/home/u/.pshaw/work/history"
          "/home/u/.pshaw/work/workdir").data) := by
  decide

/-- C4 amended: the rendered init script contains, in this order on
their own lines, (a) an unexported assignment binding the identifying
variable `PSHAW_LABEL` to the label, (b) `source` of the user's startup
file, (c) `shopt -s histappend` plus `HISTFILE=` pointed at the session
history path, (d) a `cd` to the content of the workdir file, and (e) a
`PROMPT_COMMAND` hook that appends history and overwrites the workdir
file with the current directory after every command, keeping any
pre-existing hook by ending with the previous `$PROMPT_COMMAND`. -/
theorem C4_init_script_fragments (label rcpath historypath workpath :
    String) :
    (("\nPSHAW_LABEL=" ++ label ++ "\n").data <:+:
        (init_bash label rcpath historypath workpath).data)
    ∧ (("\nsource " ++ rcpath ++ "\n").data <:+:
        (init_bash label rcpath historypath workpath).data)
    ∧ (("\nshopt -s histappend\nHISTFILE=" ++ historypath ++ "\n").data <:+:
        (init_bash label rcpath historypath workpath).data)
    ∧ (("\ncd `cat " ++ workpath ++ "`\n").data <:+:
        (init_bash label rcpath historypath workpath).data)
    ∧ (("\nPROMPT_COMMAND=\"history -a; pwd > " ++ workpath ++
          "; $PROMPT_COMMAND\"\n").data <:+:
        (init_bash label rcpath historypath workpath).data) := by
  refine ⟨⟨"\n".data,
      ("source " ++ rcpath ++ "\n\nshopt -s histappend\nHISTFILE=" ++
        historypath ++ "\ncd `cat " ++ workpath ++
        "`\nPROMPT_COMMAND=\"history -a; pwd > " ++ workpath ++
        "; $PROMPT_COMMAND\"\n\necho === Connected to session " ++ label ++
        " ===\n\n").data, ?_⟩,
    ⟨("\n\nPSHAW_LABEL=" ++ label).data,
      ("\nshopt -s histappend\nHISTFILE=" ++ historypath ++
        "\ncd `cat " ++ workpath ++
        "`\nPROMPT_COMMAND=\"history -a; pwd > " ++ workpath ++
        "; $PROMPT_COMMAND\"\n\necho === Connected to session " ++ label ++
        " ===\n\n").data, ?_⟩,
    ⟨("\n\nPSHAW_LABEL=" ++ label ++ "\nsource " ++ rcpath ++ "\n").data,
      ("cd `cat " ++ workpath ++
        "`\nPROMPT_COMMAND=\"history -a; pwd > " ++ workpath ++
        "; $PROMPT_COMMAND\"\n\necho === Connected to session " ++ label ++
        " ===\n\n").data, ?_⟩,
    ⟨("\n\nPSHAW_LABEL=" ++ label ++ "\nsource " ++ rcpath ++
        "\n\nshopt -s histappend\nHISTFILE=" ++ historypath).data,
      ("PROMPT_COMMAND=\"history -a; pwd > " ++ workpath ++
        "; $PROMPT_COMMAND\"\n\necho === Connected to session " ++ label ++
        " ===\n\n").data, ?_⟩,
    ⟨("\n\nPSHAW_LABEL=" ++ label ++ "\nsource " ++ rcpath ++
        "\n\nshopt -s histappend\nHISTFILE=" ++ historypath ++
        "\ncd `cat " ++ workpath ++ "`").data,
      ("\necho === Connected to session " ++ label ++ " ===\n\n").data,
      ?_⟩⟩ <;>
    · simp only [init_bash, String.data_append, List.append_assoc]
      rfl

theorem C4_init_script_fragments_witness :
    ("\nPSHAW_LABEL=" ++ "work" ++ "\n").data <:+:
      (init_bash "work" "/home/u/.bashrc" "/home/u/.pshaw/work/history"
        "/home/u/.pshaw/work/workdir").data :=
  (C4_init_script_fragments "work" "/home/u/.bashrc"
    "/home/u/.pshaw/work/history" "/home/u/.pshaw/work/workdir").1

end Pshaw
